import Mathlib

/-!
# KrishiMitra — verification of the inference-pipeline specification

Shallow embedding of the three KrishiMitra model services (crop
recommendation, irrigation, plant disease) and proofs about the claims of
the specification.  Python floats are modelled as exact rationals (`ℚ`);
Python dictionaries as association lists in insertion order; FastAPI /
pydantic request validation as explicit checks run before the handler
body; a raised-and-uncaught exception as an `Except.error` propagating to
the caller.  The externally produced model artifacts (Keras network,
random forest) are opaque: they are parameters of the embedded handlers,
exactly as they are opaque inputs of the Python code.
-/

/-- Python `dict.get(k, default)` over an insertion-ordered association
list (Python dict keys are unique, and iteration order is insertion
order). -/
def dictGet {α β : Type} [BEq α] (l : List (α × β)) (k : α) (d : β) : β :=
  match l.find? (fun p => p.1 == k) with
  | some p => p.2
  | none => d

/-- NumPy `np.max` over a 1-d vector: left fold of the binary maximum (empty
input is an error in NumPy; we return 0, and every use site is nonempty). -/
def npMax : List ℚ → ℚ
  | [] => 0
  | x :: xs => xs.foldl max x

/-- NumPy `np.argmax` over a 1-d vector, by NumPy's documented semantics:
the index of the *first* occurrence of the maximum value. -/
def npArgmax (l : List ℚ) : Nat :=
  l.findIdx (fun x => x == npMax l)

/-- Minimum of a list of rationals (`pandas` `Series.min` over a nonempty
numeric column; 0 for the empty list, never used on it). -/
def listMinQ : List ℚ → ℚ
  | [] => 0
  | x :: xs => xs.foldl min x

/-- Round-half-to-even on a rational, as Python `round` does on its
(here exactly represented) argument. -/
def pyRoundHalfEven (x : ℚ) : ℤ :=
  if x - ⌊x⌋ = 1/2 then (if ⌊x⌋ % 2 = 0 then ⌊x⌋ else ⌊x⌋ + 1) else ⌊x + 1/2⌋

/-- Python `round(x, 4)`. -/
def pyRound4 (x : ℚ) : ℚ :=
  (pyRoundHalfEven (x * 10000) : ℚ) / 10000

/-- One error outcome of a request handler (the HTTP status code and
detail payload of the `HTTPException` / validation failure raised by the
Python code; `invalidEnum` carries the valid-options list that the Python
code interpolates into its 400 detail string). -/
inductive ApiError where
  /-- pydantic rejected the request body (HTTP 422) before the handler ran. -/
  | validationError
  /-- HTTP 400, detail names the offending field and lists the valid values. -/
  | invalidEnum (fieldName : String) (validOptions : List String)
  /-- HTTP 400 with a plain detail string. -/
  | badRequest (detail : String)
  /-- HTTP 404. -/
  | notFound (detail : String)
  /-- HTTP 503. -/
  | serviceUnavailable (detail : String)
  /-- HTTP 500. -/
  | serverError (detail : String)
deriving DecidableEq

/-! ## Crop-recommendation service (`crop-recommender-production/api.py`) -/

/-- Static district encoding table, in source insertion order. -/
def district_to_encoded : List (String × Int) :=
  [("Khartoum", 2), ("ALfashir", 0), ("Algazira", 1), ("Shendi", 4), ("Niyala", 3)]

/-- Static soil-color encoding table, in source insertion order. -/
def soil_color_to_encoded : List (String × Int) :=
  [("Black", 0), ("Red", 5), ("Medium Brown", 3), ("Dark Brown", 1),
   ("Light Brown", 2), ("Reddish Brown", 6)]

/-- Class catalog: crop label per predicted index. -/
def encoded_to_label : List (Nat × String) :=
  [(0, "Cotton"), (1, "Ginger"), (2, "Gram"), (3, "Grapes"), (4, "Groundnut"),
   (5, "Jowar"), (6, "Maize"), (7, "Masoor"), (8, "Moong"), (9, "Rice"),
   (10, "Soybean"), (11, "Sugarcane"), (12, "Tur"), (13, "Turmeric"),
   (14, "Urad"), (15, "Wheat")]

/-- Python `list(district_to_encoded.keys())`. -/
def districtOptions : List String := district_to_encoded.map Prod.fst

/-- Python `list(soil_color_to_encoded.keys())`. -/
def soilColorOptions : List String := soil_color_to_encoded.map Prod.fst

/-- Python `list(encoded_to_label.values())`: the 16 catalog crop names. -/
def valid_crops : List String := encoded_to_label.map Prod.snd

/-- Body of `POST /predict` (pydantic model `CropPredictionRequest`:
plain `str`/`float` fields, no range constraints declared). -/
structure CropPredictionRequest where
  district : String
  soil_color : String
  nitrogen : ℚ
  phosphorus : ℚ
  potassium : ℚ
  ph : ℚ
  rainfall : ℚ
  temperature : ℚ

/-- Response of `POST /predict`. -/
structure CropPredictionResponse where
  recommended_crop : String
  confidence : ℚ
deriving DecidableEq

/-- The 9-element feature vector assembled by `predict` before scaling:
constant 0 placeholder for the vestigial training-index column, the
two encoded categoricals, then the six numeric fields, in training
column order. -/
def cropFeatures (encoded_district encoded_soil_color : Int)
    (request : CropPredictionRequest) : List ℚ :=
  [0, (encoded_district : ℚ), (encoded_soil_color : ℚ),
   request.nitrogen, request.phosphorus, request.potassium,
   request.ph, request.rainfall, request.temperature]

/-- Handler of `POST /predict`.  The loaded Keras model and the fitted
`StandardScaler` are process-wide state produced by external libraries;
they enter here as opaque functions on feature vectors. -/
def predict (mdl : List ℚ → List ℚ) (scaler : List ℚ → List ℚ)
    (request : CropPredictionRequest) : Except ApiError CropPredictionResponse :=
  let encoded_district := dictGet district_to_encoded request.district (-1)
  if encoded_district == -1 then
    .error (.invalidEnum "district" districtOptions)
  else
    let encoded_soil_color := dictGet soil_color_to_encoded request.soil_color (-1)
    if encoded_soil_color == -1 then
      .error (.invalidEnum "soil color" soilColorOptions)
    else
      let features := cropFeatures encoded_district encoded_soil_color request
      let scaled_features := scaler features
      let prediction := mdl scaled_features
      let predicted_class_index := npArgmax prediction
      let confidence := npMax prediction
      let predicted_crop := dictGet encoded_to_label predicted_class_index "Unknown"
      .ok { recommended_crop := predicted_crop, confidence := pyRound4 confidence }

/-! ### Fertilizer sub-flow (`POST /recommend-fertilizer`) -/

/-- One row of the reference dataset `crop_and_fertilizer.csv` (the
columns the fertilizer flow reads). -/
structure FertilizerRow where
  crop_string : String
  nitrogen : ℚ
  phosphorus : ℚ
  potassium : ℚ
  fertilizer : String
  link : String
deriving DecidableEq

/-- Body of `POST /recommend-fertilizer` (pydantic model
`FertilizerRequest`: plain fields, no range constraints). -/
structure FertilizerRequest where
  crop : String
  district : String
  soil_color : String
  nitrogen : ℚ
  phosphorus : ℚ
  potassium : ℚ
  ph : ℚ
  rainfall : ℚ
  temperature : ℚ

/-- Response of `POST /recommend-fertilizer`. -/
structure FertilizerRecommendationResponse where
  crop : String
  crop_confidence : ℚ
  recommended_fertilizer : String
  fertilizer_confidence : ℚ
  tutorial_link : String
  alternative_fertilizers : List String
deriving DecidableEq

/-- The `npk_distance` column: sum of absolute N/P/K differences between
a dataset row and the request. -/
def npkDistance (request : FertilizerRequest) (r : FertilizerRow) : ℚ :=
  |r.nitrogen - request.nitrogen| + |r.phosphorus - request.phosphorus| +
    |r.potassium - request.potassium|

/-- First-occurrence deduplication (the distinct values underlying a
pandas `value_counts` index), keeping input order. -/
def dedupFirstAux : List String → List String → List String
  | [], _ => []
  | x :: xs, seen =>
    if seen.contains x then dedupFirstAux xs seen
    else x :: dedupFirstAux xs (x :: seen)

/-- Distinct values of a list, first occurrences first. -/
def dedupFirst (l : List String) : List String := dedupFirstAux l []

/-- Ordering used to sort `value_counts` output: descending count. -/
def countGE (a b : String × Nat) : Prop := b.2 ≤ a.2

instance : DecidableRel countGE := fun a b => inferInstanceAs (Decidable (b.2 ≤ a.2))

instance : IsTotal (String × Nat) countGE := ⟨fun a b => le_total b.2 a.2⟩

instance : IsTrans (String × Nat) countGE := ⟨fun _ _ _ h1 h2 => le_trans h2 h1⟩

/-- pandas `Series.value_counts()`: pairs each distinct value with its
number of occurrences, sorted by descending count. -/
def valueCounts (l : List String) : List (String × Nat) :=
  List.insertionSort countGE ((dedupFirst l).map (fun v => (v, l.count v)))

/-- Handler of `POST /recommend-fertilizer`, over the loaded reference
dataset. -/
def recommend_fertilizer (dataset : List FertilizerRow)
    (request : FertilizerRequest) : Except ApiError FertilizerRecommendationResponse :=
  if (valid_crops.contains request.crop) = false then
    .error (.invalidEnum "crop" valid_crops)
  else
    match dataset.filter (fun r => r.crop_string == request.crop) with
    | [] => .error (.notFound ("No fertilizer data available for " ++ request.crop))
    | m0 :: rest =>
      let crop_matches := m0 :: rest
      -- `crop_matches['npk_distance'].idxmin()` then `.loc[...]`:
      -- the first row attaining the minimum distance
      let best_match :=
        (crop_matches.find?
          (fun r => npkDistance request r == listMinQ (crop_matches.map (npkDistance request)))).getD m0
      let fertilizer_counts := valueCounts (crop_matches.map (fun r => r.fertilizer))
      let total_matches : ℚ := (crop_matches.length : ℚ)
      let fertilizer_confidence :=
        ((dictGet fertilizer_counts best_match.fertilizer 0 : Nat) : ℚ) / total_matches
      let top_fertilizers := (fertilizer_counts.take 4).map Prod.fst
      let alternatives := (top_fertilizers.filter (fun f => f != best_match.fertilizer)).take 2
      .ok { crop := request.crop
            crop_confidence := 1
            recommended_fertilizer := best_match.fertilizer
            fertilizer_confidence := pyRound4 fertilizer_confidence
            tutorial_link := best_match.link
            alternative_fertilizers := alternatives }

/-! ### Crop service startup

`api.py` runs `model = tf.keras.models.load_model(...)` (and the CSV
read / scaler fit) at module top level with **no** `try`/`except`: a
load failure propagates out of module initialization and the process
never starts serving. -/

/-- The loaded Keras crop model: an opaque scoring function. -/
def CropModel : Type := List ℚ → List ℚ

/-- Crop service startup.  The outer `Except` is the process-start
outcome: an artifact-load failure is re-raised unguarded, so it aborts
startup instead of being recorded in a readiness flag. -/
def cropStartup (loadResult : Except String CropModel) : Except String CropModel :=
  loadResult

/-- Endpoint `GET /health` of the crop service: a static payload, independent of
any load state. -/
def crop_health : String := "healthy"

/-! ## Irrigation service (`irrigation/api.py`) -/

/-- The loaded random-forest irrigation model: opaque class prediction
plus class-probability vector over `[OFF, ON]`. -/
structure IrrigationModel where
  predict : List ℚ → Nat
  predict_proba : List ℚ → List ℚ

/-- Irrigation service state after the guarded load: either the loaded
model (`model_loaded = True`) or the captured error message
(`model_loaded = False`, `model_error`). -/
def IrrigationState : Type := Except String IrrigationModel

/-- Irrigation startup: the whole load is inside `try`/`except`, so
process start always succeeds and the load outcome is recorded as
service state. -/
def irrigationStartup (loadResult : Except String IrrigationModel) :
    Except String IrrigationState :=
  .ok loadResult

/-- What `GET /health` of the irrigation service reports. -/
structure HealthReport where
  status : String
  model_loaded : Bool
  error : Option String
deriving DecidableEq

/-- Endpoint `GET /health` of the irrigation service. -/
def irrigation_health (st : IrrigationState) : HealthReport :=
  match st with
  | .ok _ => { status := "healthy", model_loaded := true, error := none }
  | .error e => { status := "unhealthy", model_loaded := false, error := some e }

/-- Body of `POST /predict` (pydantic model `IrrigationInput`). -/
structure IrrigationInput where
  soil_moisture : ℚ
  temperature : ℚ
  soil_humidity : ℚ
  time : Int
  air_temperature : ℚ
  wind_speed : ℚ
  air_humidity : ℚ
  wind_gust : ℚ
  pressure : ℚ
  ph : ℚ
  rainfall : ℚ
  nitrogen : ℚ
  phosphorus : ℚ
  potassium : ℚ

/-- The pydantic `Field(..., ge=..., le=...)` bounds of
`IrrigationInput`, checked by FastAPI before the handler body runs. -/
def irrigationValidate (i : IrrigationInput) : Bool :=
  (0 ≤ i.soil_moisture && i.soil_moisture ≤ 100) &&
  (-10 ≤ i.temperature && i.temperature ≤ 60) &&
  (0 ≤ i.soil_humidity && i.soil_humidity ≤ 100) &&
  (0 ≤ i.time && i.time ≤ 23) &&
  (-10 ≤ i.air_temperature && i.air_temperature ≤ 50) &&
  (0 ≤ i.wind_speed && i.wind_speed ≤ 50) &&
  (0 ≤ i.air_humidity && i.air_humidity ≤ 100) &&
  (0 ≤ i.wind_gust && i.wind_gust ≤ 100) &&
  (95 ≤ i.pressure && i.pressure ≤ 110) &&
  (0 ≤ i.ph && i.ph ≤ 14) &&
  (0 ≤ i.rainfall && i.rainfall ≤ 500) &&
  (0 ≤ i.nitrogen && i.nitrogen ≤ 200) &&
  (0 ≤ i.phosphorus && i.phosphorus ≤ 200) &&
  (0 ≤ i.potassium && i.potassium ≤ 200)

/-- Response of irrigation `POST /predict` (`probabilities` is the dict
with the fixed keys `"OFF"` and `"ON"`). -/
structure IrrigationResponse where
  status : String
  confidence : ℚ
  prob_OFF : ℚ
  prob_ON : ℚ
  recommendation : String
deriving DecidableEq

/-- The 14-feature vector assembled in training column order, with no
categorical encoding and no standardization. -/
def irrigationFeatures (i : IrrigationInput) : List ℚ :=
  [i.soil_moisture, i.temperature, i.soil_humidity, (i.time : ℚ),
   i.air_temperature, i.wind_speed, i.air_humidity, i.wind_gust,
   i.pressure, i.ph, i.rainfall, i.nitrogen, i.phosphorus, i.potassium]

/-- Handler of irrigation `POST /predict` (after pydantic validation):
503 while the model is not loaded, otherwise predict, map class 1→ON /
0→OFF, report both class probabilities, the probability of the predicted
class as confidence, and the per-branch recommendation template. -/
def predict_irrigation (st : IrrigationState) (input_data : IrrigationInput) :
    Except ApiError IrrigationResponse :=
  if irrigationValidate input_data = false then .error .validationError
  else
    match st with
    | .error _ => .error (.serviceUnavailable "Model not loaded")
    | .ok m =>
      let features := irrigationFeatures input_data
      let prediction := m.predict features
      let probabilities := m.predict_proba features
      let status := if prediction = 1 then "ON" else "OFF"
      let confidence := probabilities.getD prediction 0
      let recommendation :=
        if status = "ON" then
          "Your crops need water. It is recommended to turn ON the irrigation system."
        else
          "Irrigation is not needed at this time. Keep the irrigation system OFF."
      .ok { status := status
            confidence := confidence
            prob_OFF := probabilities.getD 0 0
            prob_ON := probabilities.getD 1 0
            recommendation := recommendation }

/-! ## Plant-disease service (`cnn model/api.py` and `cnn model/main.py`) -/

/-- A PIL image: a mode string (`"RGB"`, `"L"`, `"RGBA"`, ...), pixel
dimensions, and per-pixel channel values.  The number of channels is
determined by the mode. -/
structure PILImage where
  mode : String
  width : Nat
  height : Nat
  px : Nat → Nat → List ℚ

/-- PIL `image.convert("RGB")`, modelled from PIL's documented behavior
at the granularity these claims need: the result is a 3-channel RGB
image of the same dimensions whose pixels are derived from the input
pixels (grayscale replicates the single channel; modes with extra
channels drop them). -/
def convertRGB (img : PILImage) : PILImage :=
  { mode := "RGB", width := img.width, height := img.height,
    px := fun x y =>
      match img.mode, img.px x y with
      | "L", [v] => [v, v, v]
      | _, p => p.take 3 }

/-- NumPy `np.array(image)` followed by `np.expand_dims(..., axis=0)`: the
single-image batch fed to the model.  No pixel-value rescaling is
applied anywhere on the way. -/
structure EncodedInput where
  batch : Nat
  height : Nat
  width : Nat
  mode : String
  px : Nat → Nat → List ℚ

/-- Wrap an image as a single-item batch, keeping its pixel values
untouched. -/
def toArrayBatch (img : PILImage) : EncodedInput :=
  { batch := 1, height := img.height, width := img.width,
    mode := img.mode, px := img.px }

/-- Disease feature encoding of the HTTP binding (`api.py`,
`predict_disease`): convert to RGB when the mode differs, resize to
128×128, wrap as a batch of one.  `resizeFn` is PIL's `Image.resize`,
an external-library operation passed in opaquely. -/
def apiEncodeImage (resizeFn : Nat → Nat → PILImage → PILImage)
    (img : PILImage) : EncodedInput :=
  let img1 := if img.mode ≠ "RGB" then convertRGB img else img
  toArrayBatch (resizeFn 128 128 img1)

/-- Disease feature encoding of the interactive-form binding (`main.py`,
`model_prediction`): resize to 128×128 and wrap as a batch of one,
with **no** mode conversion. -/
def mainEncodeImage (resizeFn : Nat → Nat → PILImage → PILImage)
    (img : PILImage) : EncodedInput :=
  toArrayBatch (resizeFn 128 128 img)

/-- A concrete stand-in for PIL `Image.resize((w, h))` used to evaluate
the pipelines on concrete images: nearest-neighbor sampling.  Like every
PIL resize filter it preserves the image mode and only resamples
pixels. -/
def resizeNearest (w h : Nat) (img : PILImage) : PILImage :=
  { mode := img.mode, width := w, height := h,
    px := fun x y => img.px (x * img.width / w) (y * img.height / h) }

/-- The loaded disease CNN: an opaque scoring function over encoded
batches. -/
structure DiseaseModel where
  predict : EncodedInput → List ℚ

/-- Disease service state after the guarded load (`load_model` catches
every exception and records `model_loaded` / `model_error`). -/
def DiseaseState : Type := Except String DiseaseModel

/-- Disease service startup: `load_model()` is fully guarded, so the
process always starts and the outcome is recorded as state. -/
def cnnStartup (loadResult : Except String DiseaseModel) :
    Except String DiseaseState :=
  .ok loadResult

/-- Endpoint `GET /health` of the disease service (the `num_classes` field of the
payload is a constant and is omitted here). -/
def cnn_health (st : DiseaseState) : HealthReport :=
  match st with
  | .ok _ => { status := "healthy", model_loaded := true, error := none }
  | .error e => { status := "unhealthy", model_loaded := false, error := some e }

/-- The 38-entry disease class catalog. -/
def CLASS_NAMES : List String :=
  ["Apple___Apple_scab",
   "Apple___Black_rot",
   "Apple___Cedar_apple_rust",
   "Apple___healthy",
   "Blueberry___healthy",
   "Cherry_(including_sour)___Powdery_mildew",
   "Cherry_(including_sour)___healthy",
   "Corn_(maize)___Cercospora_leaf_spot Gray_leaf_spot",
   "Corn_(maize)___Common_rust_",
   "Corn_(maize)___Northern_Leaf_Blight",
   "Corn_(maize)___healthy",
   "Grape___Black_rot",
   "Grape___Esca_(Black_Measles)",
   "Grape___Leaf_blight_(Isariopsis_Leaf_Spot)",
   "Grape___healthy",
   "Orange___Haunglongbing_(Citrus_greening)",
   "Peach___Bacterial_spot",
   "Peach___healthy",
   "Pepper,_bell___Bacterial_spot",
   "Pepper,_bell___healthy",
   "Potato___Early_blight",
   "Potato___Late_blight",
   "Potato___healthy",
   "Raspberry___healthy",
   "Soybean___healthy",
   "Squash___Powdery_mildew",
   "Strawberry___Leaf_scorch",
   "Strawberry___healthy",
   "Tomato___Bacterial_spot",
   "Tomato___Early_blight",
   "Tomato___Late_blight",
   "Tomato___Leaf_Mold",
   "Tomato___Septoria_leaf_spot",
   "Tomato___Spider_mites Two-spotted_spider_mite",
   "Tomato___Target_Spot",
   "Tomato___Tomato_Yellow_Leaf_Curl_Virus",
   "Tomato___Tomato_mosaic_virus",
   "Tomato___healthy"]

/-- Python `pat in s` for a nonempty pattern: `s.split(pat)` has at
least two parts exactly when `pat` occurs in `s`. -/
def strContains (s pat : String) : Bool := 2 ≤ (s.splitOn pat).length

/-- The uploaded file of disease `POST /predict`: its content type and
the image `PIL.Image.open` decodes from its bytes. -/
structure UploadFile where
  content_type : String
  image : PILImage

/-- Response of disease `POST /predict`. -/
structure DiseaseResponse where
  plant : String
  disease : String
  is_healthy : Bool
  confidence : ℚ
  raw_class : String
  recommendation : String

/-- Handler of disease `POST /predict`: 503 while the model is not
loaded, 400 for a non-image content type, otherwise encode (HTTP-binding
pipeline), score, take the first maximum, and format plant/condition,
healthy flag, confidence and the per-branch recommendation. -/
def predict_disease (st : DiseaseState)
    (resizeFn : Nat → Nat → PILImage → PILImage) (file : UploadFile) :
    Except ApiError DiseaseResponse :=
  match st with
  | .error e => .error (.serviceUnavailable ("Model not loaded: " ++ e))
  | .ok m =>
    if (file.content_type.startsWith "image/") = false then
      .error (.badRequest "File must be an image (JPG, PNG)")
    else
      let input_arr := apiEncodeImage resizeFn file.image
      let prediction := m.predict input_arr
      let result_index := npArgmax prediction
      let confidence := npMax prediction
      -- Python `CLASS_NAMES[result_index]` raises `IndexError` out of
      -- range; the handler's `except` turns that into a 500
      match CLASS_NAMES.get? result_index with
      | none => .error (.serverError "list index out of range")
      | some raw_class =>
        match raw_class.splitOn "___" with
        | [plant0, condition0] =>
          let plant := plant0.replace "_" " "
          let condition := condition0.replace "_" " "
          let is_healthy := strContains raw_class.toLower "healthy"
          let recommendation :=
            if is_healthy then
              "Your " ++ plant ++ " plant appears healthy! Continue with regular care and monitoring."
            else
              "Disease detected: " ++ condition ++ ". Consider consulting an agricultural expert for treatment options."
          .ok { plant := plant
                disease := if is_healthy then "None" else condition
                is_healthy := is_healthy
                confidence := confidence
                raw_class := raw_class
                recommendation := recommendation }
        | _ => .error (.serverError "not enough values to unpack")

/-- The score vector the crop `predict` handler computes for a request
that passes both enum checks. -/
def cropScores (mdl scaler : List ℚ → List ℚ) (request : CropPredictionRequest) : List ℚ :=
  mdl (scaler (cropFeatures
    (dictGet district_to_encoded request.district (-1))
    (dictGet soil_color_to_encoded request.soil_color (-1)) request))

/-- Concrete crop request of the specification scenario. -/
def scenarioRequest : CropPredictionRequest :=
  { district := "Khartoum", soil_color := "Black", nitrogen := 50,
    phosphorus := 40, potassium := 50, ph := 13/2, rainfall := 800,
    temperature := 25 }

/-- Crop request with nitrogen far outside the documented [20, 150]
range (all other fields in range). -/
def outOfRangeRequest : CropPredictionRequest :=
  { district := "Khartoum", soil_color := "Black", nitrogen := 1000000,
    phosphorus := 40, potassium := 50, ph := 13/2, rainfall := 800,
    temperature := 25 }

/-- A stand-in loaded model: constant softmax-like output over the 16
crop classes. -/
def constModel16 : List ℚ → List ℚ :=
  fun _ => [1, 0, 0, 0, 0, 0, 0, 0, 0, 0, 0, 0, 0, 0, 0, 0]

/-- A "Rice" reference row whose N/P/K match `riceRequest` exactly. -/
def riceRow1 : FertilizerRow :=
  { crop_string := "Rice", nitrogen := 50, phosphorus := 40, potassium := 50,
    fertilizer := "Urea", link := "https://youtu.be/urea" }

/-- A "Rice" reference row far from `riceRequest` in N/P/K. -/
def riceRow2 : FertilizerRow :=
  { crop_string := "Rice", nitrogen := 0, phosphorus := 0, potassium := 0,
    fertilizer := "DAP", link := "https://youtu.be/dap" }

/-- A second copy of the far-away "DAP" row. -/
def riceRow3 : FertilizerRow :=
  { crop_string := "Rice", nitrogen := 0, phosphorus := 0, potassium := 0,
    fertilizer := "DAP", link := "https://youtu.be/dap" }

/-- Three reference rows for the crop "Rice" (a fertilizer distribution
with an exact-NPK match on the rarest fertilizer). -/
def riceDataset : List FertilizerRow := [riceRow1, riceRow2, riceRow3]

/-- Fertilizer request matching the first `riceDataset` row exactly. -/
def riceRequest : FertilizerRequest :=
  { crop := "Rice", district := "Khartoum", soil_color := "Black",
    nitrogen := 50, phosphorus := 40, potassium := 50, ph := 13/2,
    rainfall := 800, temperature := 25 }

/-- A second fertilizer request: same crop and N/P/K as `riceRequest`,
different district, soil color, pH, rainfall and temperature. -/
def riceRequestShifted : FertilizerRequest :=
  { crop := "Rice", district := "Shendi", soil_color := "Red",
    nitrogen := 50, phosphorus := 40, potassium := 50, ph := 4,
    rainfall := 500, temperature := 33 }

/-- A valid irrigation input (the documented example payload). -/
def exampleIrrigationInput : IrrigationInput :=
  { soil_moisture := 50, temperature := 30, soil_humidity := 40, time := 12,
    air_temperature := 25, wind_speed := 5, air_humidity := 50,
    wind_gust := 10, pressure := 101, ph := 7, rainfall := 200,
    nitrogen := 80, phosphorus := 45, potassium := 40 }

/-- A stand-in loaded irrigation model that always answers class 1 with
probabilities [0.3, 0.7]. -/
def onModel : IrrigationModel :=
  { predict := fun _ => 1, predict_proba := fun _ => [3/10, 7/10] }

/-- A stand-in crop model whose score vector has 17 entries with the
maximum at index 16 (outside the 16-class catalog). -/
def oobModel : List ℚ → List ℚ :=
  fun _ => List.replicate 16 0 ++ [1]

/-- A concrete score vector with a tie for the maximum. -/
def exampleScores : List ℚ := [1/2, 3/4, 3/4]

/-- A concrete 2×2 grayscale (mode `"L"`) image. -/
def grayImage : PILImage :=
  { mode := "L", width := 2, height := 2, px := fun _ _ => [1/2] }

/-- A concrete 2×2 RGB image. -/
def rgbImage : PILImage :=
  { mode := "RGB", width := 2, height := 2, px := fun _ _ => [1, 2, 3] }

/-! ## Helper lemmas -/

theorem le_foldl_max (xs : List ℚ) (a : ℚ) : a ≤ xs.foldl max a := by
  induction xs generalizing a with
  | nil => exact le_refl a
  | cons y ys ih => exact le_trans (le_max_left a y) (ih (max a y))

theorem mem_le_foldl_max (xs : List ℚ) (a x : ℚ) (hx : x ∈ xs) :
    x ≤ xs.foldl max a := by
  induction xs generalizing a with
  | nil => cases hx
  | cons y ys ih =>
    rcases List.mem_cons.mp hx with h | h
    · subst h
      exact le_trans (le_max_right a x) (le_foldl_max ys (max a x))
    · exact ih (max a y) h

theorem foldl_max_mem (xs : List ℚ) (a : ℚ) :
    xs.foldl max a = a ∨ xs.foldl max a ∈ xs := by
  induction xs generalizing a with
  | nil => exact Or.inl rfl
  | cons y ys ih =>
    rcases ih (max a y) with h | h
    · rcases max_choice a y with hm | hm
      · exact Or.inl (by rw [List.foldl_cons, h, hm])
      · exact Or.inr (by rw [List.foldl_cons, h, hm]; exact List.mem_cons_self y ys)
    · exact Or.inr (List.mem_cons_of_mem y h)

theorem foldl_min_le (xs : List ℚ) (a : ℚ) : xs.foldl min a ≤ a := by
  induction xs generalizing a with
  | nil => exact le_refl a
  | cons y ys ih => exact le_trans (ih (min a y)) (min_le_left a y)

theorem foldl_min_le_mem (xs : List ℚ) (a x : ℚ) (hx : x ∈ xs) :
    xs.foldl min a ≤ x := by
  induction xs generalizing a with
  | nil => cases hx
  | cons y ys ih =>
    rcases List.mem_cons.mp hx with h | h
    · subst h
      exact le_trans (foldl_min_le ys (min a x)) (min_le_right a x)
    · exact ih (min a y) h

theorem foldl_min_mem (xs : List ℚ) (a : ℚ) :
    xs.foldl min a = a ∨ xs.foldl min a ∈ xs := by
  induction xs generalizing a with
  | nil => exact Or.inl rfl
  | cons y ys ih =>
    rcases ih (min a y) with h | h
    · rcases min_choice a y with hm | hm
      · exact Or.inl (by rw [List.foldl_cons, h, hm])
      · exact Or.inr (by rw [List.foldl_cons, h, hm]; exact List.mem_cons_self y ys)
    · exact Or.inr (List.mem_cons_of_mem y h)

theorem npMax_mem {l : List ℚ} (h : l ≠ []) : npMax l ∈ l := by
  cases l with
  | nil => exact absurd rfl h
  | cons x xs =>
    rcases foldl_max_mem xs x with hm | hm
    · rw [npMax, hm]; exact List.mem_cons_self x xs
    · exact List.mem_cons_of_mem x (by rw [npMax]; exact hm)

theorem le_npMax {l : List ℚ} {x : ℚ} (hx : x ∈ l) : x ≤ npMax l := by
  cases l with
  | nil => cases hx
  | cons y ys =>
    rcases List.mem_cons.mp hx with h | h
    · subst h; exact le_foldl_max ys x
    · exact mem_le_foldl_max ys y x h

theorem listMinQ_mem {l : List ℚ} (h : l ≠ []) : listMinQ l ∈ l := by
  cases l with
  | nil => exact absurd rfl h
  | cons x xs =>
    rcases foldl_min_mem xs x with hm | hm
    · rw [listMinQ, hm]; exact List.mem_cons_self x xs
    · exact List.mem_cons_of_mem x (by rw [listMinQ]; exact hm)

theorem listMinQ_le {l : List ℚ} {x : ℚ} (hx : x ∈ l) : listMinQ l ≤ x := by
  cases l with
  | nil => cases hx
  | cons y ys =>
    rcases List.mem_cons.mp hx with h | h
    · subst h; exact foldl_min_le ys x
    · exact foldl_min_le_mem ys y x h

theorem npArgmax_lt_length {l : List ℚ} (h : l ≠ []) :
    npArgmax l < l.length :=
  List.findIdx_lt_length_of_exists ⟨npMax l, npMax_mem h, by simp⟩

theorem getD_npArgmax {l : List ℚ} (h : l ≠ []) :
    l.getD (npArgmax l) 0 = npMax l := by
  have hlt := npArgmax_lt_length h
  rw [List.getD_eq_getElem l 0 hlt]
  have := @List.findIdx_getElem ℚ (fun x => x == npMax l) l hlt
  simpa using this

theorem le_npMax_getD {l : List ℚ} {j : Nat} (hj : j < l.length) :
    l.getD j 0 ≤ npMax l := by
  rw [List.getD_eq_getElem l 0 hj]
  exact le_npMax (List.getElem_mem hj)

theorem lt_npMax_of_lt_npArgmax {l : List ℚ} {j : Nat} (h : l ≠ [])
    (hj : j < npArgmax l) : l.getD j 0 < npMax l := by
  have hjl : j < l.length := lt_trans hj (npArgmax_lt_length h)
  have hne : (l[j] == npMax l) = false :=
    @List.not_of_lt_findIdx ℚ (fun x => x == npMax l) l j hj
  have hne' : l[j] ≠ npMax l := by simpa using hne
  rw [List.getD_eq_getElem l 0 hjl]
  exact lt_of_le_of_ne (le_npMax (List.getElem_mem hjl)) hne'

theorem pyRoundHalfEven_nonneg {x : ℚ} (h0 : 0 ≤ x) : 0 ≤ pyRoundHalfEven x := by
  unfold pyRoundHalfEven
  split
  · have hf : (0 : ℤ) ≤ ⌊x⌋ := Int.floor_nonneg.mpr h0
    split
    · exact hf
    · omega
  · exact Int.floor_nonneg.mpr (by linarith)

theorem pyRoundHalfEven_le {x b : ℚ} {n : ℤ} (hx : x ≤ b) (hb : b = (n : ℚ)) :
    pyRoundHalfEven x ≤ n := by
  subst hb
  unfold pyRoundHalfEven
  split
  · rename_i hhalf
    have hfl : (⌊x⌋ : ℚ) = x - 1/2 := by linarith
    have hlt : ⌊x⌋ < n := by
      by_contra hcon
      push_neg at hcon
      have : (n : ℚ) ≤ (⌊x⌋ : ℚ) := by exact_mod_cast hcon
      linarith
    split
    · omega
    · omega
  · have h1 : x + 1/2 ≤ (n : ℚ) + 1/2 := by linarith
    have h2 : ⌊x + 1/2⌋ ≤ ⌊(n : ℚ) + 1/2⌋ := Int.floor_le_floor h1
    have h3 : ⌊(n : ℚ) + 1/2⌋ = n := by
      rw [Int.floor_eq_iff]
      constructor
      · linarith
      · norm_num
    omega

theorem pyRound4_nonneg {x : ℚ} (h0 : 0 ≤ x) : 0 ≤ pyRound4 x := by
  unfold pyRound4
  have h := @pyRoundHalfEven_nonneg (x * 10000) (by linarith)
  have : (0 : ℚ) ≤ (pyRoundHalfEven (x * 10000) : ℚ) := by exact_mod_cast h
  positivity

theorem pyRound4_le_one {x : ℚ} (h1 : x ≤ 1) : pyRound4 x ≤ 1 := by
  unfold pyRound4
  have h : pyRoundHalfEven (x * 10000) ≤ 10000 :=
    @pyRoundHalfEven_le (x * 10000) 10000 10000 (by linarith) (by norm_num)
  have h2 : (pyRoundHalfEven (x * 10000) : ℚ) ≤ 10000 := by exact_mod_cast h
  linarith

theorem dictGet_cons {α β : Type} [BEq α] (p : α × β) (l : List (α × β))
    (k : α) (d : β) :
    dictGet (p :: l) k d = if p.1 == k then p.2 else dictGet l k d := by
  unfold dictGet
  cases h : p.1 == k with
  | true => rw [List.find?_cons_of_pos l h]; simp
  | false =>
    rw [List.find?_cons_of_neg l (by simp [h])]
    simp

theorem dictGet_eq_default_of_not_mem {β : Type} (l : List (String × β))
    (k : String) (d : β) (h : k ∉ l.map Prod.fst) : dictGet l k d = d := by
  unfold dictGet
  cases hf : l.find? (fun p => p.1 == k) with
  | none => rfl
  | some p =>
    have hp : p.1 = k := by simpa using List.find?_some hf
    have hm : p ∈ l := List.mem_of_find?_eq_some hf
    exact absurd (hp ▸ List.mem_map_of_mem Prod.fst hm) h

theorem dictGet_of_mem_of_nodupKeys {β : Type} {l : List (String × β)}
    {v : String} {b : β} (d : β) (hmem : (v, b) ∈ l)
    (hnd : (l.map Prod.fst).Nodup) : dictGet l v d = b := by
  induction l with
  | nil => cases hmem
  | cons p rest ih =>
    rw [dictGet_cons]
    rw [List.map_cons, List.nodup_cons] at hnd
    rcases List.mem_cons.mp hmem with h | h
    · have : p.1 = v := by rw [← h]
      simp only [this, beq_self_eq_true, if_true]
      rw [← h]
    · have hv : v ∈ rest.map Prod.fst := by
        simpa using List.mem_map_of_mem Prod.fst h
      have hne : p.1 ≠ v := fun he => hnd.1 (he ▸ hv)
      rw [if_neg (by simpa using hne)]
      exact ih h hnd.2

theorem mem_dedupFirstAux {x : String} :
    ∀ (l seen : List String),
      (x ∈ dedupFirstAux l seen ↔ x ∈ l ∧ x ∉ seen) := by
  intro l
  induction l with
  | nil => intro seen; simp [dedupFirstAux]
  | cons y ys ih =>
    intro seen
    by_cases hy : seen.contains y
    · rw [dedupFirstAux, if_pos hy, ih seen]
      have hyseen : y ∈ seen := by simpa using hy
      constructor
      · rintro ⟨h1, h2⟩; exact ⟨List.mem_cons_of_mem y h1, h2⟩
      · rintro ⟨h1, h2⟩
        rcases List.mem_cons.mp h1 with h | h
        · exact absurd (h ▸ hyseen) h2
        · exact ⟨h, h2⟩
    · rw [dedupFirstAux, if_neg hy]
      have hyseen : y ∉ seen := by simpa using hy
      constructor
      · intro h
        rcases List.mem_cons.mp h with h | h
        · exact ⟨h ▸ List.mem_cons_self y ys, h ▸ hyseen⟩
        · have := (ih (y :: seen)).mp h
          exact ⟨List.mem_cons_of_mem y this.1,
            fun hc => this.2 (List.mem_cons_of_mem y hc)⟩
      · rintro ⟨h1, h2⟩
        rcases List.mem_cons.mp h1 with h | h
        · exact h ▸ List.mem_cons_self y _
        · by_cases hxy : x = y
          · exact hxy ▸ List.mem_cons_self y _
          · exact List.mem_cons_of_mem y ((ih (y :: seen)).mpr
              ⟨h, by simp [hxy, h2]⟩)

theorem mem_dedupFirst {x : String} {l : List String} :
    x ∈ dedupFirst l ↔ x ∈ l := by
  rw [dedupFirst, mem_dedupFirstAux]
  simp

theorem nodup_dedupFirstAux :
    ∀ (l seen : List String), (dedupFirstAux l seen).Nodup := by
  intro l
  induction l with
  | nil => intro seen; simp [dedupFirstAux]
  | cons y ys ih =>
    intro seen
    by_cases hy : seen.contains y
    · rw [dedupFirstAux, if_pos hy]; exact ih seen
    · rw [dedupFirstAux, if_neg hy]
      rw [List.nodup_cons]
      refine ⟨fun hc => ?_, ih (y :: seen)⟩
      exact ((mem_dedupFirstAux ys (y :: seen)).mp hc).2 (List.mem_cons_self y seen)

theorem nodup_dedupFirst (l : List String) : (dedupFirst l).Nodup :=
  nodup_dedupFirstAux l []

theorem valueCounts_perm (l : List String) :
    (valueCounts l).Perm ((dedupFirst l).map (fun v => (v, l.count v))) :=
  List.perm_insertionSort countGE _

theorem map_fst_valueCounts_nodup (l : List String) :
    ((valueCounts l).map Prod.fst).Nodup := by
  have heq : ((dedupFirst l).map (fun v => (v, l.count v))).map Prod.fst
      = dedupFirst l := by
    rw [List.map_map]
    exact List.map_id _
  have hperm := (valueCounts_perm l).map Prod.fst
  rw [heq] at hperm
  exact hperm.symm.nodup (nodup_dedupFirst l)

theorem mem_valueCounts {l : List String} {v : String} (hv : v ∈ l) :
    (v, l.count v) ∈ valueCounts l := by
  have : (v, l.count v) ∈ (dedupFirst l).map (fun v => (v, l.count v)) :=
    List.mem_map_of_mem _ (mem_dedupFirst.mpr hv)
  exact ((valueCounts_perm l).mem_iff).mpr this

theorem dictGet_valueCounts {l : List String} {v : String} (hv : v ∈ l) :
    dictGet (valueCounts l) v 0 = l.count v :=
  dictGet_of_mem_of_nodupKeys 0 (mem_valueCounts hv) (map_fst_valueCounts_nodup l)

theorem sorted_snd_valueCounts (l : List String) :
    ((valueCounts l).map Prod.snd).Sorted (fun a b => b ≤ a) := by
  have h : (valueCounts l).Sorted countGE := List.sorted_insertionSort countGE _
  exact List.Pairwise.map Prod.snd (fun _ _ hab => hab) h

theorem take_filter_take (rec : String) :
    ∀ (k : Nat) (l : List String), l.count rec ≤ 1 →
      ((l.take (k + 2)).filter (fun f => f != rec)).take k
        = (l.filter (fun f => f != rec)).take k := by
  intro k l
  induction l generalizing k with
  | nil => intro _; simp
  | cons x xs ih =>
    intro hcnt
    by_cases hx : x = rec
    · subst hx
      have hcnt' : xs.count x = 0 := by
        have := List.count_cons_self x xs
        omega
      have hxs : ∀ f ∈ xs, (f != x) = true := by
        intro f hf
        have : x ∉ xs := List.count_eq_zero.mp hcnt'
        simp only [bne_iff_ne, ne_eq]
        exact fun he => this (he ▸ hf)
      have hfilters : xs.filter (fun f => f != x) = xs := List.filter_eq_self.mpr hxs
      have hfiltert : (xs.take (k + 1)).filter (fun f => f != x) = xs.take (k + 1) :=
        List.filter_eq_self.mpr (fun f hf => hxs f (List.mem_of_mem_take hf))
      rw [show k + 2 = (k + 1) + 1 from rfl, List.take_succ_cons,
        List.filter_cons_of_neg (by simp), hfiltert,
        List.filter_cons_of_neg (by simp), hfilters, List.take_take,
        min_eq_left (by omega)]
    · have hcnt' : xs.count rec ≤ 1 := by
        have := List.count_cons_of_ne (show rec ≠ x from fun h => hx h.symm) xs
        omega
      cases k with
      | zero => simp
      | succ k' =>
        rw [show k' + 1 + 2 = (k' + 2) + 1 from by omega, List.take_succ_cons,
          List.filter_cons_of_pos (by simp [hx]),
          List.filter_cons_of_pos (by simp [hx]),
          List.take_succ_cons, List.take_succ_cons, ih k' hcnt']

/-! ## Claim theorems -/

/-- C7: for every score vector a multi-class model returns, the
index chosen by the inference adapter (`np.argmax`) is the index of the
maximum score with ties broken by the lowest index, and the reported
confidence (`np.max`) equals the score at that chosen index, with no
re-normalization: the chosen index is in range, the score there equals
the reported maximum, no score exceeds it, and every score at a lower
index is strictly below it. -/
theorem first_max_selection_policy (scores : List ℚ) (h : scores ≠ []) :
    npArgmax scores < scores.length ∧
    scores.getD (npArgmax scores) 0 = npMax scores ∧
    (∀ j, j < scores.length → scores.getD j 0 ≤ npMax scores) ∧
    (∀ j, j < npArgmax scores → scores.getD j 0 < npMax scores) :=
  ⟨npArgmax_lt_length h, getD_npArgmax h,
    fun _ hj => le_npMax_getD hj,
    fun _ hj => lt_npMax_of_lt_npArgmax h hj⟩

/-- Witness for C7 at the concrete tied vector `[1/2, 3/4, 3/4]`. -/
theorem first_max_selection_policy_witness :
    npArgmax exampleScores < exampleScores.length ∧
    exampleScores.getD (npArgmax exampleScores) 0 = npMax exampleScores ∧
    (∀ j, j < exampleScores.length →
      exampleScores.getD j 0 ≤ npMax exampleScores) ∧
    (∀ j, j < npArgmax exampleScores →
      exampleScores.getD j 0 < npMax exampleScores) :=
  first_max_selection_policy exampleScores (by simp [exampleScores])

/-- C9: the fertilizer recommendation depends only on the crop,
nitrogen, phosphorus and potassium fields of the request; two requests
agreeing on those four fields receive identical responses whatever their
district, soil color, pH, rainfall and temperature. -/
theorem fertilizer_depends_only_on_crop_npk (dataset : List FertilizerRow)
    (r1 r2 : FertilizerRequest) (hc : r1.crop = r2.crop)
    (hn : r1.nitrogen = r2.nitrogen) (hp : r1.phosphorus = r2.phosphorus)
    (hk : r1.potassium = r2.potassium) :
    recommend_fertilizer dataset r1 = recommend_fertilizer dataset r2 := by
  unfold recommend_fertilizer npkDistance
  rw [hc, hn, hp, hk]

/-- Witness for C9: two concrete requests sharing crop and N/P/K but
differing in district, soil color, pH, rainfall and temperature. -/
theorem fertilizer_depends_only_on_crop_npk_witness :
    recommend_fertilizer riceDataset riceRequest =
      recommend_fertilizer riceDataset riceRequestShifted :=
  fertilizer_depends_only_on_crop_npk riceDataset riceRequest riceRequestShifted
    rfl rfl rfl rfl

set_option maxRecDepth 8000 in
/-- C1 (divergence witness): the crop `POST /predict` handler
performs no numeric range validation.  A request with nitrogen =
1 000 000 — far outside the documented [20, 150] range — is not rejected:
the encoded vector reaches the model and the handler answers 200 with a
prediction (evaluated here against a concrete stand-in model and the
identity scaler). -/
theorem crop_predict_out_of_range_reaches_model :
    predict constModel16 id outOfRangeRequest =
      Except.ok { recommended_crop := "Cotton", confidence := 1 } := by
  have h1 : predict constModel16 id outOfRangeRequest =
      Except.ok { recommended_crop := "Cotton", confidence := pyRound4 1 } := rfl
  rw [h1]
  norm_num [pyRound4, pyRoundHalfEven]

/-- C2 counterexample: the crop service's model load is *not*
guarded, so a load failure aborts process startup instead of being
recorded as a degraded-but-running state — refuting the claim for the
crop service. -/
theorem cropStartup_load_failure_fatal :
    (cropStartup (Except.error "model artifact failed to load")).isOk = false :=
  rfl

/-- C2 (amended): for the irrigation and disease services a
model-load failure is non-fatal — startup completes, the health query
reports the captured error, and every (validated) inference request
while unloaded fails fast with a 503 service-unavailable outcome; the
crop service, by contrast, propagates a load failure out of startup. -/
theorem startup_resilience_amended (e : String) :
    irrigationStartup (Except.error e) = Except.ok (Except.error e) ∧
    irrigation_health (Except.error e) =
      { status := "unhealthy", model_loaded := false, error := some e } ∧
    (∀ inp : IrrigationInput, irrigationValidate inp = true →
      predict_irrigation (Except.error e) inp =
        Except.error (ApiError.serviceUnavailable "Model not loaded")) ∧
    cnnStartup (Except.error e) = Except.ok (Except.error e) ∧
    cnn_health (Except.error e) =
      { status := "unhealthy", model_loaded := false, error := some e } ∧
    (∀ (resizeFn : Nat → Nat → PILImage → PILImage) (file : UploadFile),
      predict_disease (Except.error e) resizeFn file =
        Except.error (ApiError.serviceUnavailable ("Model not loaded: " ++ e))) ∧
    cropStartup (Except.error e) = Except.error e := by
  refine ⟨rfl, rfl, ?_, rfl, rfl, ?_, rfl⟩
  · intro inp hv
    simp [predict_irrigation, hv]
  · intro resizeFn file
    rfl

/-- Witness for C2 (amended) at a concrete load error and input. -/
theorem startup_resilience_amended_witness :
    irrigationStartup (Except.error "file not found") =
      Except.ok (Except.error "file not found") ∧
    irrigation_health (Except.error "file not found") =
      { status := "unhealthy", model_loaded := false, error := some "file not found" } ∧
    (∀ inp : IrrigationInput, irrigationValidate inp = true →
      predict_irrigation (Except.error "file not found") inp =
        Except.error (ApiError.serviceUnavailable "Model not loaded")) ∧
    cnnStartup (Except.error "file not found") =
      Except.ok (Except.error "file not found") ∧
    cnn_health (Except.error "file not found") =
      { status := "unhealthy", model_loaded := false, error := some "file not found" } ∧
    (∀ (resizeFn : Nat → Nat → PILImage → PILImage) (file : UploadFile),
      predict_disease (Except.error "file not found") resizeFn file =
        Except.error (ApiError.serviceUnavailable ("Model not loaded: " ++ "file not found"))) ∧
    cropStartup (Except.error "file not found") = Except.error "file not found" :=
  startup_resilience_amended "file not found"

/-- C8: for every valid irrigation request, the response status is
"ON" exactly when the predicted binary class is 1 and "OFF" exactly when
it is 0, both class probabilities are reported under the "OFF"/"ON"
keys, the confidence is the probability of the predicted class, and the
recommendation is the fixed per-branch template. -/
theorem irrigation_response_formatting (m : IrrigationModel)
    (input_data : IrrigationInput) (hv : irrigationValidate input_data = true)
    (hb : m.predict (irrigationFeatures input_data) = 0 ∨
      m.predict (irrigationFeatures input_data) = 1) :
    ∃ resp, predict_irrigation (Except.ok m) input_data = Except.ok resp ∧
      (resp.status = "ON" ↔ m.predict (irrigationFeatures input_data) = 1) ∧
      (resp.status = "OFF" ↔ m.predict (irrigationFeatures input_data) = 0) ∧
      resp.prob_OFF = (m.predict_proba (irrigationFeatures input_data)).getD 0 0 ∧
      resp.prob_ON = (m.predict_proba (irrigationFeatures input_data)).getD 1 0 ∧
      resp.confidence =
        (if m.predict (irrigationFeatures input_data) = 1 then resp.prob_ON
         else resp.prob_OFF) ∧
      resp.recommendation =
        (if resp.status = "ON" then
          "Your crops need water. It is recommended to turn ON the irrigation system."
         else
          "Irrigation is not needed at this time. Keep the irrigation system OFF.") := by
  rcases hb with h0 | h1
  · have heq : predict_irrigation (Except.ok m) input_data = Except.ok
        { status := "OFF"
          confidence := (m.predict_proba (irrigationFeatures input_data)).getD 0 0
          prob_OFF := (m.predict_proba (irrigationFeatures input_data)).getD 0 0
          prob_ON := (m.predict_proba (irrigationFeatures input_data)).getD 1 0
          recommendation :=
            "Irrigation is not needed at this time. Keep the irrigation system OFF." } := by
      simp [predict_irrigation, hv, h0]
    exact ⟨_, heq, by simp [h0]⟩
  · have heq : predict_irrigation (Except.ok m) input_data = Except.ok
        { status := "ON"
          confidence := (m.predict_proba (irrigationFeatures input_data)).getD 1 0
          prob_OFF := (m.predict_proba (irrigationFeatures input_data)).getD 0 0
          prob_ON := (m.predict_proba (irrigationFeatures input_data)).getD 1 0
          recommendation :=
            "Your crops need water. It is recommended to turn ON the irrigation system." } := by
      simp [predict_irrigation, hv, h1]
    exact ⟨_, heq, by simp [h1]⟩

/-- Witness for C8: the always-ON stand-in model on a concrete valid
input. -/
theorem irrigation_response_formatting_witness :
    ∃ resp, predict_irrigation (Except.ok onModel) exampleIrrigationInput =
        Except.ok resp ∧
      (resp.status = "ON" ↔
        onModel.predict (irrigationFeatures exampleIrrigationInput) = 1) ∧
      (resp.status = "OFF" ↔
        onModel.predict (irrigationFeatures exampleIrrigationInput) = 0) ∧
      resp.prob_OFF =
        (onModel.predict_proba (irrigationFeatures exampleIrrigationInput)).getD 0 0 ∧
      resp.prob_ON =
        (onModel.predict_proba (irrigationFeatures exampleIrrigationInput)).getD 1 0 ∧
      resp.confidence =
        (if onModel.predict (irrigationFeatures exampleIrrigationInput) = 1 then
          resp.prob_ON
         else resp.prob_OFF) ∧
      resp.recommendation =
        (if resp.status = "ON" then
          "Your crops need water. It is recommended to turn ON the irrigation system."
         else
          "Irrigation is not needed at this time. Keep the irrigation system OFF.") :=
  irrigation_response_formatting onModel exampleIrrigationInput (by decide)
    (Or.inr rfl)

/-- C5: a crop-domain request whose district (resp. soil color) is
not in the static encoding table is rejected with a 400 invalid-input
error carrying the valid enum set, for every model and scaler — i.e. the
value is never mapped to a default code and never reaches the model. -/
theorem unknown_enum_rejected (mdl scaler : List ℚ → List ℚ)
    (req : CropPredictionRequest) :
    (req.district ∉ districtOptions →
      predict mdl scaler req =
        Except.error (ApiError.invalidEnum "district" districtOptions)) ∧
    (req.district ∈ districtOptions → req.soil_color ∉ soilColorOptions →
      predict mdl scaler req =
        Except.error (ApiError.invalidEnum "soil color" soilColorOptions)) := by
  constructor
  · intro hd
    have h := dictGet_eq_default_of_not_mem district_to_encoded req.district
      (-1 : Int) hd
    simp [predict, h]
  · intro hd hs
    have h2 := dictGet_eq_default_of_not_mem soil_color_to_encoded req.soil_color
      (-1 : Int) hs
    have h1 : dictGet district_to_encoded req.district (-1) ≠ -1 := by
      have hcases : req.district = "Khartoum" ∨ req.district = "ALfashir" ∨
          req.district = "Algazira" ∨ req.district = "Shendi" ∨
          req.district = "Niyala" := by
        simpa [districtOptions, district_to_encoded] using hd
      rcases hcases with h | h | h | h | h <;> rw [h] <;> decide
    simp [predict, h1, h2]

/-- Witness for C5: an unknown district, and an unknown soil color under
a valid district, at concrete requests. -/
theorem unknown_enum_rejected_witness :
    predict constModel16 id
        { district := "Mars", soil_color := "Black", nitrogen := 50,
          phosphorus := 40, potassium := 50, ph := 7, rainfall := 800,
          temperature := 25 } =
      Except.error (ApiError.invalidEnum "district" districtOptions) ∧
    predict constModel16 id
        { district := "Khartoum", soil_color := "Purple", nitrogen := 50,
          phosphorus := 40, potassium := 50, ph := 7, rainfall := 800,
          temperature := 25 } =
      Except.error (ApiError.invalidEnum "soil color" soilColorOptions) :=
  ⟨(unknown_enum_rejected constModel16 id _).1 (by decide),
   (unknown_enum_rejected constModel16 id _).2 (by decide) (by decide)⟩

theorem dictGet_label_oob {i : Nat} (h : 16 ≤ i) :
    dictGet encoded_to_label i "Unknown" = "Unknown" := by
  unfold dictGet
  cases hf : encoded_to_label.find? (fun p => p.1 == i) with
  | none => rfl
  | some p =>
    have hp : p.1 = i := by simpa using List.find?_some hf
    have hm : p ∈ encoded_to_label := List.mem_of_find?_eq_some hf
    have hlt : p.1 < 16 := by
      have hall : ∀ q ∈ encoded_to_label, q.1 < 16 := by decide
      exact hall p hm
    omega

theorem dictGet_label_mem : ∀ i, i < 16 →
    dictGet encoded_to_label i "Unknown" ∈ valid_crops := by decide

/-- C10: the crop label lookup is total — for every model (hence
every score vector), a request passing enum validation gets a 200
response whose crop name is the dictionary lookup with default
"Unknown"; in particular an argmax index outside the 0–15 catalog yields
the name "Unknown" rather than a lookup error. -/
theorem crop_label_lookup_total (mdl scaler : List ℚ → List ℚ)
    (req : CropPredictionRequest)
    (hd : dictGet district_to_encoded req.district (-1) ≠ -1)
    (hs : dictGet soil_color_to_encoded req.soil_color (-1) ≠ -1) :
    ∃ resp, predict mdl scaler req = Except.ok resp ∧
      resp.recommended_crop =
        dictGet encoded_to_label (npArgmax (cropScores mdl scaler req)) "Unknown" ∧
      (16 ≤ npArgmax (cropScores mdl scaler req) →
        resp.recommended_crop = "Unknown") := by
  have heq : predict mdl scaler req = Except.ok
      { recommended_crop :=
          dictGet encoded_to_label (npArgmax (cropScores mdl scaler req)) "Unknown"
        confidence := pyRound4 (npMax (cropScores mdl scaler req)) } := by
    simp [predict, cropScores, hd, hs]
  exact ⟨_, heq, rfl, fun h16 => dictGet_label_oob h16⟩

/-- Witness for C10: a stand-in model scoring 17 classes with the
maximum at index 16, outside the catalog. -/
theorem crop_label_lookup_total_witness :
    ∃ resp, predict oobModel id scenarioRequest = Except.ok resp ∧
      resp.recommended_crop =
        dictGet encoded_to_label
          (npArgmax (cropScores oobModel id scenarioRequest)) "Unknown" ∧
      (16 ≤ npArgmax (cropScores oobModel id scenarioRequest) →
        resp.recommended_crop = "Unknown") :=
  crop_label_lookup_total oobModel id scenarioRequest (by decide) (by decide)

/-- C4: the specification scenario {district="Khartoum",
soil_color="Black", N=50, P=40, K=50, ph=6.5, rainfall=800,
temperature=25} encodes — before standardization — to exactly
[0, 2, 0, 50, 40, 50, 6.5, 800, 25] (constant 0 placeholder first), and
for any loaded model whose score vector has 16 entries in [0,1] the
response carries one of the 16 catalog crop names with confidence in
[0,1]. -/
theorem crop_scenario_khartoum (mdl scaler : List ℚ → List ℚ)
    (hlen : (cropScores mdl scaler scenarioRequest).length = 16)
    (hrange : ∀ x ∈ cropScores mdl scaler scenarioRequest, 0 ≤ x ∧ x ≤ 1) :
    dictGet district_to_encoded scenarioRequest.district (-1) = 2 ∧
    dictGet soil_color_to_encoded scenarioRequest.soil_color (-1) = 0 ∧
    cropFeatures 2 0 scenarioRequest = [0, 2, 0, 50, 40, 50, 13/2, 800, 25] ∧
    ∃ resp, predict mdl scaler scenarioRequest = Except.ok resp ∧
      resp.recommended_crop ∈ valid_crops ∧
      0 ≤ resp.confidence ∧ resp.confidence ≤ 1 := by
  have hne : cropScores mdl scaler scenarioRequest ≠ [] := by
    intro h
    rw [h] at hlen
    simp at hlen
  have heq : predict mdl scaler scenarioRequest = Except.ok
      { recommended_crop :=
          dictGet encoded_to_label
            (npArgmax (cropScores mdl scaler scenarioRequest)) "Unknown"
        confidence := pyRound4 (npMax (cropScores mdl scaler scenarioRequest)) } :=
    rfl
  refine ⟨rfl, rfl, by norm_num [cropFeatures, scenarioRequest], _, heq, ?_, ?_, ?_⟩
  · have hidx : npArgmax (cropScores mdl scaler scenarioRequest) < 16 :=
      hlen ▸ npArgmax_lt_length hne
    exact dictGet_label_mem _ hidx
  · exact pyRound4_nonneg (hrange _ (npMax_mem hne)).1
  · exact pyRound4_le_one (hrange _ (npMax_mem hne)).2

/-- Witness for C4 with a concrete constant softmax model and the
identity scaler. -/
theorem crop_scenario_khartoum_witness :
    dictGet district_to_encoded scenarioRequest.district (-1) = 2 ∧
    dictGet soil_color_to_encoded scenarioRequest.soil_color (-1) = 0 ∧
    cropFeatures 2 0 scenarioRequest = [0, 2, 0, 50, 40, 50, 13/2, 800, 25] ∧
    ∃ resp, predict constModel16 id scenarioRequest = Except.ok resp ∧
      resp.recommended_crop ∈ valid_crops ∧
      0 ≤ resp.confidence ∧ resp.confidence ≤ 1 :=
  crop_scenario_khartoum constModel16 id rfl (by decide)

/-- C6 counterexample: on a grayscale (mode "L") image the two
disease bindings produce different encoded inputs — the HTTP binding
converts to RGB, the interactive-form binding does not. -/
theorem disease_encoding_bindings_differ :
    apiEncodeImage resizeNearest grayImage ≠
      mainEncodeImage resizeNearest grayImage := by
  intro h
  have hm := congrArg EncodedInput.mode h
  simp [apiEncodeImage, mainEncodeImage, toArrayBatch, convertRGB,
    resizeNearest, grayImage] at hm

/-- C6 (amended): both disease bindings resize to 128×128, wrap the
result as a single-item batch and apply no pixel rescaling, and they
produce identical encoded inputs exactly for images already in RGB mode:
the HTTP binding always emits a 3-channel RGB encoding, while the
interactive-form binding keeps the input mode, so the two differ on
every non-RGB image. -/
theorem disease_encoding_bindings_amended
    (resizeFn : Nat → Nat → PILImage → PILImage)
    (hmode : ∀ w h img, (resizeFn w h img).mode = img.mode)
    (hsize : ∀ w h img,
      (resizeFn w h img).width = w ∧ (resizeFn w h img).height = h)
    (img : PILImage) :
    (img.mode = "RGB" → apiEncodeImage resizeFn img = mainEncodeImage resizeFn img) ∧
    (apiEncodeImage resizeFn img).mode = "RGB" ∧
    (mainEncodeImage resizeFn img).mode = img.mode ∧
    (img.mode ≠ "RGB" →
      apiEncodeImage resizeFn img ≠ mainEncodeImage resizeFn img) ∧
    (apiEncodeImage resizeFn img).batch = 1 ∧
    (mainEncodeImage resizeFn img).batch = 1 ∧
    (apiEncodeImage resizeFn img).width = 128 ∧
    (apiEncodeImage resizeFn img).height = 128 ∧
    (mainEncodeImage resizeFn img).width = 128 ∧
    (mainEncodeImage resizeFn img).height = 128 ∧
    (mainEncodeImage resizeFn img).px = (resizeFn 128 128 img).px := by
  have hapi : (apiEncodeImage resizeFn img).mode = "RGB" := by
    unfold apiEncodeImage toArrayBatch
    by_cases hrgb : img.mode = "RGB"
    · rw [if_neg (by simp [hrgb])]
      show (resizeFn 128 128 img).mode = "RGB"
      rw [hmode, hrgb]
    · rw [if_pos (by simp [hrgb])]
      show (resizeFn 128 128 (convertRGB img)).mode = "RGB"
      rw [hmode]
      rfl
  have hmain : (mainEncodeImage resizeFn img).mode = img.mode := by
    unfold mainEncodeImage toArrayBatch
    show (resizeFn 128 128 img).mode = img.mode
    exact hmode 128 128 img
  refine ⟨?_, hapi, hmain, ?_, rfl, rfl, ?_, ?_, ?_, ?_, rfl⟩
  · intro hrgb
    unfold apiEncodeImage mainEncodeImage
    rw [if_neg (by simp [hrgb])]
  · intro hne h
    rw [h, hmain] at hapi
    exact hne hapi
  · show (resizeFn 128 128 _).width = 128
    exact (hsize _ _ _).1
  · show (resizeFn 128 128 _).height = 128
    exact (hsize _ _ _).2
  · show (resizeFn 128 128 img).width = 128
    exact (hsize _ _ _).1
  · show (resizeFn 128 128 img).height = 128
    exact (hsize _ _ _).2

/-- Witness for C6 (amended): the nearest-neighbor stand-in resize on a
concrete RGB image. -/
theorem disease_encoding_bindings_amended_witness :
    (rgbImage.mode = "RGB" →
      apiEncodeImage resizeNearest rgbImage = mainEncodeImage resizeNearest rgbImage) ∧
    (apiEncodeImage resizeNearest rgbImage).mode = "RGB" ∧
    (mainEncodeImage resizeNearest rgbImage).mode = rgbImage.mode ∧
    (rgbImage.mode ≠ "RGB" →
      apiEncodeImage resizeNearest rgbImage ≠ mainEncodeImage resizeNearest rgbImage) ∧
    (apiEncodeImage resizeNearest rgbImage).batch = 1 ∧
    (mainEncodeImage resizeNearest rgbImage).batch = 1 ∧
    (apiEncodeImage resizeNearest rgbImage).width = 128 ∧
    (apiEncodeImage resizeNearest rgbImage).height = 128 ∧
    (mainEncodeImage resizeNearest rgbImage).width = 128 ∧
    (mainEncodeImage resizeNearest rgbImage).height = 128 ∧
    (mainEncodeImage resizeNearest rgbImage).px =
      (resizeNearest 128 128 rgbImage).px :=
  disease_encoding_bindings_amended resizeNearest
    (fun _ _ _ => rfl) (fun _ _ _ => ⟨rfl, rfl⟩) rgbImage

theorem recommend_fertilizer_run (dataset : List FertilizerRow)
    (req : FertilizerRequest) (hcrop : valid_crops.contains req.crop = true)
    (m0 : FertilizerRow) (rest : List FertilizerRow)
    (hm : dataset.filter (fun r => r.crop_string == req.crop) = m0 :: rest)
    (best : FertilizerRow)
    (hbest : (m0 :: rest).find?
        (fun r => npkDistance req r ==
          listMinQ ((m0 :: rest).map (npkDistance req))) = some best) :
    recommend_fertilizer dataset req = Except.ok
      { crop := req.crop
        crop_confidence := 1
        recommended_fertilizer := best.fertilizer
        fertilizer_confidence := pyRound4
          (((dictGet (valueCounts ((m0 :: rest).map (fun r => r.fertilizer)))
              best.fertilizer 0 : ℕ) : ℚ) / ((m0 :: rest).length : ℚ))
        tutorial_link := best.link
        alternative_fertilizers :=
          ((((valueCounts ((m0 :: rest).map (fun r => r.fertilizer))).take 4).map
              Prod.fst).filter (fun f => f != best.fertilizer)).take 2 } := by
  have hmem : req.crop ∈ valid_crops := by simpa using hcrop
  have hbest' := hbest
  simp only [List.map_cons] at hbest'
  simp [recommend_fertilizer, hcrop, hm, hbest', hmem]

/-- C3 counterexample: on a concrete "Rice" dataset of three rows the
recommended fertilizer occurs in 1 of 3 matching rows; the handler
reports `round(1/3, 4) = 0.3333`, which is *not* equal to the frequency
share 1/3 — so "confidence equal to that fertilizer's frequency share"
fails as stated (everything else behaves as claimed). -/
theorem fertilizer_confidence_rounding_counterexample :
    recommend_fertilizer riceDataset riceRequest = Except.ok
      { crop := "Rice", crop_confidence := 1, recommended_fertilizer := "Urea",
        fertilizer_confidence := 3333/10000,
        tutorial_link := "https://youtu.be/urea",
        alternative_fertilizers := ["DAP"] } ∧
    (3333/10000 : ℚ) ≠ (1 : ℚ)/3 := by
  constructor
  · have hd1 : npkDistance riceRequest riceRow1 = 0 := by
      norm_num [npkDistance, riceRequest, riceRow1]
    have hd2 : npkDistance riceRequest riceRow2 = 140 := by
      norm_num [npkDistance, riceRequest, riceRow2]
    have hd3 : npkDistance riceRequest riceRow3 = 140 := by
      norm_num [npkDistance, riceRequest, riceRow3]
    have hlist : (riceRow1 :: [riceRow2, riceRow3]).map (npkDistance riceRequest)
        = [0, 140, 140] := by
      rw [List.map_cons, List.map_cons, List.map_cons, List.map_nil, hd1, hd2, hd3]
    have hminv : listMinQ [(0 : ℚ), 140, 140] = 0 := rfl
    have hpred : (npkDistance riceRequest riceRow1 ==
        listMinQ ((riceRow1 :: [riceRow2, riceRow3]).map (npkDistance riceRequest)))
        = true := by
      rw [hlist, hminv, hd1]
      rfl
    have hfind : (riceRow1 :: [riceRow2, riceRow3]).find?
        (fun r => npkDistance riceRequest r ==
          listMinQ ((riceRow1 :: [riceRow2, riceRow3]).map (npkDistance riceRequest)))
        = some riceRow1 := List.find?_cons_of_pos _ hpred
    have hm : riceDataset.filter (fun r => r.crop_string == riceRequest.crop)
        = riceRow1 :: [riceRow2, riceRow3] := rfl
    have hrun := recommend_fertilizer_run riceDataset riceRequest rfl
      riceRow1 [riceRow2, riceRow3] hm riceRow1 hfind
    rw [hrun]
    have hc1 : dictGet
        (valueCounts ((riceRow1 :: [riceRow2, riceRow3]).map (fun r => r.fertilizer)))
        riceRow1.fertilizer 0 = 1 := rfl
    have halt : ((((valueCounts ((riceRow1 :: [riceRow2, riceRow3]).map
          (fun r => r.fertilizer))).take 4).map Prod.fst).filter
          (fun f => f != riceRow1.fertilizer)).take 2 = ["DAP"] := rfl
    simp only [Except.ok.injEq, FertilizerRecommendationResponse.mk.injEq, hc1, halt]
    norm_num [pyRound4, pyRoundHalfEven]
    exact ⟨rfl, rfl, rfl⟩
  · norm_num

/-- C3 (amended): for a valid crop, the fertilizer flow errors with a
404 not-found outcome exactly on zero matching rows; otherwise it
returns the fertilizer and link of a matching row of minimal N/P/K
absolute-difference distance, reports as confidence that fertilizer's
frequency share among the matching rows *rounded to 4 decimal places*,
and returns as alternatives the next-most-frequent fertilizers excluding
the recommended one, in descending frequency order, capped at 2. -/
theorem recommend_fertilizer_amended (dataset : List FertilizerRow)
    (req : FertilizerRequest) (hcrop : valid_crops.contains req.crop = true) :
    (dataset.filter (fun r => r.crop_string == req.crop) = [] →
      recommend_fertilizer dataset req =
        Except.error (ApiError.notFound
          ("No fertilizer data available for " ++ req.crop))) ∧
    (dataset.filter (fun r => r.crop_string == req.crop) ≠ [] →
      ∃ best resp,
        recommend_fertilizer dataset req = Except.ok resp ∧
        best ∈ dataset.filter (fun r => r.crop_string == req.crop) ∧
        (∀ r ∈ dataset.filter (fun r => r.crop_string == req.crop),
          npkDistance req best ≤ npkDistance req r) ∧
        resp.recommended_fertilizer = best.fertilizer ∧
        resp.tutorial_link = best.link ∧
        resp.fertilizer_confidence = pyRound4
          ((((dataset.filter (fun r => r.crop_string == req.crop)).map
              (fun r => r.fertilizer)).count best.fertilizer : ℚ) /
            ((dataset.filter (fun r => r.crop_string == req.crop)).length : ℚ)) ∧
        ((valueCounts ((dataset.filter (fun r => r.crop_string == req.crop)).map
            (fun r => r.fertilizer))).map Prod.snd).Sorted (fun a b => b ≤ a) ∧
        resp.alternative_fertilizers =
          (((valueCounts ((dataset.filter (fun r => r.crop_string == req.crop)).map
              (fun r => r.fertilizer))).map Prod.fst).filter
            (fun f => f != best.fertilizer)).take 2) := by
  have hmem : req.crop ∈ valid_crops := by simpa using hcrop
  constructor
  · intro hemp
    simp [recommend_fertilizer, hcrop, hemp, hmem]
  · intro hne
    cases hm : dataset.filter (fun r => r.crop_string == req.crop) with
    | nil => exact absurd hm hne
    | cons m0 rest =>
      have hnil : (m0 :: rest).map (npkDistance req) ≠ [] := by simp
      obtain ⟨r0, hr0mem, hr0⟩ := List.mem_map.mp (listMinQ_mem hnil)
      have hsome : ((m0 :: rest).find? (fun r => npkDistance req r ==
          listMinQ ((m0 :: rest).map (npkDistance req)))).isSome = true := by
        rw [List.find?_isSome]
        exact ⟨r0, hr0mem, by simp [hr0]⟩
      obtain ⟨best, hbest⟩ := Option.isSome_iff_exists.mp hsome
      have hbestmem : best ∈ m0 :: rest := List.mem_of_find?_eq_some hbest
      have hbesteq : npkDistance req best =
          listMinQ ((m0 :: rest).map (npkDistance req)) := by
        simpa using List.find?_some hbest
      have hfmem : best.fertilizer ∈ (m0 :: rest).map (fun r => r.fertilizer) :=
        List.mem_map_of_mem _ hbestmem
      have hrun := recommend_fertilizer_run dataset req hcrop m0 rest hm best hbest
      refine ⟨best, _, hrun, hbestmem, ?_, rfl, rfl, ?_, ?_, ?_⟩
      · intro r hr
        rw [hbesteq]
        exact listMinQ_le (List.mem_map_of_mem _ hr)
      · rw [dictGet_valueCounts hfmem]
      · exact sorted_snd_valueCounts _
      · rw [List.map_take, show (4 : ℕ) = 2 + 2 from rfl]
        exact take_filter_take best.fertilizer 2 _
          (List.nodup_iff_count_le_one.mp
            (map_fst_valueCounts_nodup ((m0 :: rest).map (fun r => r.fertilizer)))
            best.fertilizer)

/-- Witness for C3 (amended) at the concrete "Rice" dataset and
request. -/
theorem recommend_fertilizer_amended_witness :
    (riceDataset.filter (fun r => r.crop_string == riceRequest.crop) = [] →
      recommend_fertilizer riceDataset riceRequest =
        Except.error (ApiError.notFound
          ("No fertilizer data available for " ++ riceRequest.crop))) ∧
    (riceDataset.filter (fun r => r.crop_string == riceRequest.crop) ≠ [] →
      ∃ best resp,
        recommend_fertilizer riceDataset riceRequest = Except.ok resp ∧
        best ∈ riceDataset.filter (fun r => r.crop_string == riceRequest.crop) ∧
        (∀ r ∈ riceDataset.filter (fun r => r.crop_string == riceRequest.crop),
          npkDistance riceRequest best ≤ npkDistance riceRequest r) ∧
        resp.recommended_fertilizer = best.fertilizer ∧
        resp.tutorial_link = best.link ∧
        resp.fertilizer_confidence = pyRound4
          ((((riceDataset.filter (fun r => r.crop_string == riceRequest.crop)).map
              (fun r => r.fertilizer)).count best.fertilizer : ℚ) /
            ((riceDataset.filter
                (fun r => r.crop_string == riceRequest.crop)).length : ℚ)) ∧
        ((valueCounts ((riceDataset.filter
            (fun r => r.crop_string == riceRequest.crop)).map
            (fun r => r.fertilizer))).map Prod.snd).Sorted (fun a b => b ≤ a) ∧
        resp.alternative_fertilizers =
          (((valueCounts ((riceDataset.filter
              (fun r => r.crop_string == riceRequest.crop)).map
              (fun r => r.fertilizer))).map Prod.fst).filter
            (fun f => f != best.fertilizer)).take 2) :=
  recommend_fertilizer_amended riceDataset riceRequest (by decide)
